import Mathlib

/-!
Verification of the KODE-CAMP promotional-task services (student portal,
shopping cart, job tracker, notes API) against their specification.

The Python sources are shallowly embedded: JSON files become explicit state
values threaded through the handlers, fastapi HTTPException becomes an error
value carrying the observable status code and detail, pydantic models become
structures, and the two third-party primitives (bcrypt via passlib, JWT via
jose) are modelled by executable functions that keep exactly the properties
the handlers rely on.
-/

/-- HTTP error outcome: fastapi HTTPException reduced to its observable
status code and detail string. -/
structure HTTPException where
  status_code : Nat
  detail : String
deriving DecidableEq, Repr

/-- Characters of the fixed scheme prefix that passlib bcrypt (scheme 2b,
cost 12) places in front of every hash it produces. -/
def bcryptPrefix : List Char := ['$', '2', 'b', '$', '1', '2', '$']

/-- Model of bcrypt hashing at the character level: the scheme prefix, then
the salt rendered with a dollar-free alphabet, a separator, and the
information needed to re-check a candidate password.  bcrypt itself is a
third-party primitive; this model keeps the properties the code relies on:
the hash is salted, carries its own salt, decides whether a candidate
password matches, and is never equal to the plaintext. -/
def hashChars (salt : Nat) (password : List Char) : List Char :=
  bcryptPrefix ++ List.replicate salt 'x' ++ '$' :: password

/-- Model of get_password_hash (auth.py): pwd_context.hash with a fresh salt,
the salt made explicit as a parameter. -/
def get_password_hash (salt : Nat) (password : String) : String :=
  String.mk (hashChars salt password.data)

/-- Model of verify_password (auth.py): pwd_context.verify re-derives the
comparison from the hash alone, by checking the scheme prefix, skipping the
dollar-free salt, and comparing the remainder against the candidate. -/
def verify_password (plain_password : String) (hashed_password : String) : Bool :=
  let l := hashed_password.data
  (l.take 7 == bcryptPrefix) &&
    (((l.drop 7).dropWhile (fun c => c != '$')).drop 1 == plain_password.data)

theorem dropWhile_replicate_append (p : Char → Bool) (n : Nat) (c : Char)
    (hc : p c = true) (rest : List Char) :
    (List.replicate n c ++ rest).dropWhile p = rest.dropWhile p := by
  induction n with
  | zero => rfl
  | succ k ih => simp [List.replicate_succ, List.dropWhile_cons, hc, ih]

/-- Verifying a password against its own hash succeeds, for every salt. -/
theorem verify_password_hash (salt : Nat) (password : String) :
    verify_password password (get_password_hash salt password) = true := by
  have hx : ((('x' : Char) != '$') : Bool) = true := by decide
  simp [verify_password, get_password_hash, hashChars, bcryptPrefix,
    dropWhile_replicate_append _ _ _ hx, List.dropWhile_cons]

/-- A hash is never the plaintext: it is strictly longer. -/
theorem get_password_hash_ne_plain (salt : Nat) (password : String) :
    get_password_hash salt password ≠ password := by
  intro h
  have hdata : (get_password_hash salt password).data = password.data := by rw [h]
  have hlen : (get_password_hash salt password).data.length = password.data.length := by
    rw [hdata]
  simp [get_password_hash, hashChars, bcryptPrefix] at hlen
  omega

namespace JobAuth

/-- User record from task3 models.py (task2 is identical except that role
replaces full_name).  hashed_password is optional in the pydantic model but
always present in the stored records the auth module reads. -/
structure User where
  username : String
  email : String
  full_name : String
  hashed_password : String
deriving DecidableEq, Repr

def SECRET_KEY : String := "job-tracker-secret-key-change-in-production"

def ACCESS_TOKEN_EXPIRE_MINUTES : Nat := 30

/-- Model of get_user (task3 auth.py lines 40-54): linear scan of users.json,
returning the first record whose username matches; none when absent.  The
missing-file case is the empty list. -/
def get_user (users : List User) (username : String) : Option User :=
  users.find? (fun user_data => user_data.username == username)

/-- Model of authenticate_user (task3 auth.py lines 56-66): resolve the user,
then compare the password against the stored hash.  The source returns the
same falsy value (False) whether the user is missing or the password is
wrong; both are modelled as none. -/
def authenticate_user (users : List User) (username password : String) : Option User :=
  match get_user users username with
  | none => none
  | some user =>
      if verify_password password user.hashed_password then some user else none

/-- JWT modelled shallowly: the claims of the encoded payload together with
the key the token was signed with.  Nothing else of the wire format matters
to the code; a malformed token is one whose signature verifies under no key
the server uses. -/
structure Token where
  sub : Option String
  exp : Nat
  sig : String
deriving DecidableEq, Repr

/-- Outcome of jose jwt.decode: jwtError when the token is malformed or its
signature does not verify against the key, expiredError (the
ExpiredSignatureError subclass of JWTError) when the exp claim is in the
past, otherwise the decoded payload. -/
inductive DecodeResult where
  | jwtError : DecodeResult
  | expiredError : DecodeResult
  | payload : Option String → DecodeResult
deriving DecidableEq, Repr

/-- Model of jose jwt.decode with expiry checking, time in seconds. -/
def jwt_decode (tok : Token) (key : String) (now : Nat) : DecodeResult :=
  if tok.sig ≠ key then DecodeResult.jwtError
  else if tok.exp < now then DecodeResult.expiredError
  else DecodeResult.payload tok.sub

/-- Model of create_access_token (task3 auth.py lines 68-81) on its callers'
path (expires_delta is never passed): subject claim plus expiry 30 minutes
from now, signed with the module secret. -/
def create_access_token (sub : String) (now : Nat) : Token :=
  { sub := some sub, exp := now + ACCESS_TOKEN_EXPIRE_MINUTES * 60, sig := SECRET_KEY }

/-- The single exception object raised on every validation failure inside
get_current_user (task3 auth.py lines 88-92). -/
def credentials_exception : HTTPException :=
  { status_code := 401, detail := "Could not validate credentials. Please login again." }

/-- Model of get_current_user (task3 auth.py lines 83-109): decode the
bearer token (the except JWTError arm catches both jwtError and
expiredError), reject a missing sub claim, then re-resolve the subject to a
stored user.  Every failure raises the same credentials_exception. -/
def get_current_user (users : List User) (tok : Token) (now : Nat) :
    Except HTTPException User :=
  match jwt_decode tok SECRET_KEY now with
  | DecodeResult.jwtError => Except.error credentials_exception
  | DecodeResult.expiredError => Except.error credentials_exception
  | DecodeResult.payload none => Except.error credentials_exception
  | DecodeResult.payload (some username) =>
      match get_user users username with
      | none => Except.error credentials_exception
      | some user => Except.ok user

/-- Registration payload from task3 models.py. -/
structure UserCreate where
  username : String
  email : String
  password : String
  full_name : String
deriving DecidableEq, Repr

/-- Duplicate scan of register_user (task3 main.py lines 104-114): for each
existing user in file order, the username check precedes the email check,
and the first offending user decides the error. -/
def dup_check : List User → UserCreate → Option HTTPException
  | [], _ => none
  | existing_user :: rest, user =>
    if existing_user.username = user.username then
      some { status_code := 400, detail := "Username already registered" }
    else if existing_user.email = user.email then
      some { status_code := 400, detail := "Email already registered" }
    else dup_check rest user

/-- Model of register_user (task3 main.py lines 92-143): reject duplicate
username or email, otherwise hash the password and append the new record.
The pair returns the resulting store (unchanged when the request fails,
since the file is only rewritten on success) and the response. -/
def register_user (users : List User) (user : UserCreate) (salt : Nat) :
    List User × Except HTTPException String :=
  match dup_check users user with
  | some e => (users, Except.error e)
  | none =>
      let new_user : User :=
        { username := user.username, email := user.email,
          full_name := user.full_name,
          hashed_password := get_password_hash salt user.password }
      (users ++ [new_user], Except.ok ("User " ++ user.username ++ " registered successfully!"))

end JobAuth

namespace Jobs

/-- JobApplication record from task3 models.py. -/
structure JobApplication where
  id : Int
  job_title : String
  company : String
  date_applied : String
  status : String
  notes : Option String
deriving DecidableEq, Repr

/-- Creation payload from task3 models.py (id and date are generated). -/
structure JobApplicationCreate where
  job_title : String
  company : String
  status : String
  notes : Option String
deriving DecidableEq, Repr

/-- Content of applications.json: a dictionary keyed by username; a missing
key means that user has no list yet. -/
def JobsDB := String → Option (List JobApplication)

/-- Point update of the dictionary, as performed before the whole file is
rewritten. -/
def dbSet (db : JobsDB) (username : String) (apps : List JobApplication) : JobsDB :=
  fun v => if v = username then some apps else db v

/-- Model of add_job_application (task3 main.py lines 145-186): create the
missing key if needed, assign id len+1, stamp only the creation date, append
and rewrite. -/
def add_job_application (db : JobsDB) (username : String)
    (application : JobApplicationCreate) (current_date : String) :
    JobApplication × JobsDB :=
  let existing := (db username).getD []
  let application_id : Int := (existing.length : Int) + 1
  let new_application : JobApplication :=
    { id := application_id, job_title := application.job_title,
      company := application.company, date_applied := current_date,
      status := application.status, notes := application.notes }
  (new_application, dbSet db username (existing ++ [new_application]))

/-- Model of get_my_applications (task3 main.py lines 188-207). -/
def get_my_applications (db : JobsDB) (username : String) : List JobApplication :=
  (db username).getD []

/-- Observable request failure: either an HTTPException the handler raised
deliberately, or an uncaught Python exception. -/
inductive PyError where
  | http : Nat → String → PyError
  | attributeError : String → PyError
deriving DecidableEq, Repr

/-- HTTP status the client sees: fastapi maps an uncaught exception to a 500
response. -/
def httpStatusOf : PyError → Nat
  | PyError.http code _ => code
  | PyError.attributeError _ => 500

/-- Loop of update_application_status (task3 main.py lines 281-285): the
first application whose id matches gets its status field replaced, then the
loop breaks; none when no id matches. -/
def set_status_first : List JobApplication → Int → String → Option (List JobApplication)
  | [], _, _ => none
  | app :: rest, application_id, new_status =>
    if app.id = application_id then
      some ({ app with status := new_status } :: rest)
    else
      match set_status_first rest application_id new_status with
      | none => none
      | some rest2 => some (app :: rest2)

/-- Model of update_application_status (task3 main.py lines 256-301).  The
str parameter named status shadows the fastapi status module imported at the
top of the file, so the not-found branch (line 288) evaluates
status.HTTP_404_NOT_FOUND on a str and raises AttributeError, which fastapi
surfaces as a 500 response; the 404 the code visibly intends is never
produced.  The file is rewritten only on the success path, so the store is
unchanged on every failure. -/
def update_application_status (db : JobsDB) (username : String)
    (application_id : Int) (new_status : String) :
    JobsDB × Except PyError String :=
  let user_applications := (db username).getD []
  match set_status_first user_applications application_id new_status with
  | none =>
      (db, Except.error (PyError.attributeError
        "str object has no attribute HTTP_404_NOT_FOUND"))
  | some apps2 =>
      (dbSet db username apps2,
       Except.ok ("Application " ++ toString application_id ++
         " status updated to " ++ new_status))

end Jobs

namespace Notes

/-- Note record from task4 models.py lines 9-30. -/
structure Note where
  id : Int
  title : String
  content : String
  date_created : String
  date_updated : String
deriving DecidableEq, Repr

/-- Creation payload from task4 models.py (id and dates are generated). -/
structure NoteCreate where
  title : String
  content : String
deriving DecidableEq, Repr

/-- Per-owner notes files under notes_data: none models a missing
username_notes.json file. -/
def NotesDB := String → Option (List Note)

/-- Rewrite of one owner's notes file. -/
def dbSet (db : NotesDB) (username : String) (notes : List Note) : NotesDB :=
  fun v => if v = username then some notes else db v

/-- Core of add_note (task4 main.py lines 162-192) on one owner's collection:
id is len+1, both date stamps are the current time, the note is appended. -/
def add_note_core (notes : List Note) (note : NoteCreate) (current_date : String) :
    Note × List Note :=
  let note_id : Int := (notes.length : Int) + 1
  let new_note : Note :=
    { id := note_id, title := note.title, content := note.content,
      date_created := current_date, date_updated := current_date }
  (new_note, notes ++ [new_note])

/-- Model of the add_note endpoint (task4 main.py lines 153-198): a missing
file is treated as the empty list, then the owner's file is rewritten. -/
def add_note (db : NotesDB) (username : String) (note : NoteCreate)
    (current_date : String) : Note × NotesDB :=
  let result := add_note_core ((db username).getD []) note current_date
  (result.1, dbSet db username result.2)

/-- Model of get_my_notes (task4 main.py lines 200-219): the owner's notes in
file order, or the empty list when the file is missing. -/
def get_my_notes (db : NotesDB) (username : String) : List Note :=
  (db username).getD []

/-- Exception raised by the 404 paths of the note endpoints. -/
def note_not_found : HTTPException := { status_code := 404, detail := "Note not found" }

/-- Loop of update_note (task4 main.py lines 287-295): the first note whose
id matches gets title, content and date_updated replaced in place; id and
date_created are not touched; the loop breaks at the first match.  Returns
the captured updated_note together with the mutated list, or none when no id
matches. -/
def update_first : List Note → Int → NoteCreate → String → Option (Note × List Note)
  | [], _, _, _ => none
  | note :: rest, note_id, note_update, now =>
    if note.id = note_id then
      let updated_note : Note :=
        { id := note.id, title := note_update.title,
          content := note_update.content,
          date_created := note.date_created, date_updated := now }
      some (updated_note, updated_note :: rest)
    else
      match update_first rest note_id note_update now with
      | none => none
      | some (updated_note, rest2) => some (updated_note, note :: rest2)

/-- Model of update_note (task4 main.py lines 262-315): 404 when the owner
has no notes file or no note with the given id; otherwise replace the first
match and rewrite only that owner's file.  On failure nothing is written. -/
def update_note (db : NotesDB) (username : String) (note_id : Int)
    (note_update : NoteCreate) (now : String) :
    NotesDB × Except HTTPException Note :=
  match db username with
  | none => (db, Except.error note_not_found)
  | some notes =>
      match update_first notes note_id note_update now with
      | none => (db, Except.error note_not_found)
      | some (updated_note, notes2) =>
          (dbSet db username notes2, Except.ok updated_note)

/-- Core of delete_note (task4 main.py lines 340-348): keep the notes whose
id differs, and report 404 when the length did not change. -/
def delete_note_core (notes : List Note) (note_id : Int) :
    Except HTTPException (List Note) :=
  let remaining := notes.filter (fun note => note.id != note_id)
  if remaining.length = notes.length then Except.error note_not_found
  else Except.ok remaining

/-- Model of delete_note (task4 main.py lines 317-365): 404 when the owner
has no notes file or no note with the given id (nothing is written), else
rewrite the owner's file with the survivors. -/
def delete_note (db : NotesDB) (username : String) (note_id : Int) :
    NotesDB × Except HTTPException String :=
  match db username with
  | none => (db, Except.error note_not_found)
  | some notes =>
      match delete_note_core notes note_id with
      | Except.error e => (db, Except.error e)
      | Except.ok remaining =>
          (dbSet db username remaining,
           Except.ok ("Note " ++ toString note_id ++ " deleted successfully"))

/-- Owner-level view of a request sequence: each step is the add_note or
delete_note endpoint applied to that owner's collection. -/
inductive NoteOp where
  | addOp : NoteCreate → String → NoteOp
  | deleteOp : Int → NoteOp
deriving Repr

/-- Effect of one request on one owner's collection, exactly as the
endpoints leave it: add appends with id len+1, delete filters by id and
leaves the collection unchanged on its 404 path. -/
def apply_op (notes : List Note) : NoteOp → List Note
  | NoteOp.addOp note now => (add_note_core notes note now).2
  | NoteOp.deleteOp note_id =>
      match delete_note_core notes note_id with
      | Except.error _ => notes
      | Except.ok remaining => remaining

/-- Collection an owner ends with after a sequence of requests, starting
from the empty collection a fresh registration creates. -/
def run_ops (ops : List NoteOp) : List Note :=
  ops.foldl apply_op []

end Notes

namespace Portal

/-- Student record from task1 models.py lines 27-42; grades are floats in
the source, modelled as rationals. -/
structure Student where
  username : String
  password_hash : String
  grades : List Rat
deriving DecidableEq, Repr

/-- students.json: a dictionary keyed by username. -/
def Students := String → Option Student

/-- Point update of the dictionary before the whole file is rewritten. -/
def dbSet (students : Students) (username : String) (s : Student) : Students :=
  fun v => if v = username then some s else students v

/-- Exception of task1 main.py line 101: the same 401 for a missing user and
for a failed password check. -/
def invalid_credentials : HTTPException :=
  { status_code := 401, detail := "Invalid credentials" }

/-- Model of register (task1 main.py lines 50-78): 409 when the username is
already a key of students.json (nothing written), otherwise store a new
record with the hashed password and an empty grades list. -/
def register (students : Students) (username password : String) (salt : Nat) :
    Students × Except HTTPException String :=
  if (students username).isSome then
    (students, Except.error { status_code := 409, detail := "Username already exists" })
  else
    (dbSet students username
      { username := username, password_hash := get_password_hash salt password,
        grades := [] },
     Except.ok "Registered")

/-- Model of login (task1 main.py lines 81-104): the or-condition at line
100 raises one and the same 401 both when the username is absent and when
the password check fails. -/
def login (students : Students) (username password : String) :
    Except HTTPException String :=
  match students username with
  | none => Except.error invalid_credentials
  | some user =>
      if verify_password password user.password_hash then Except.ok "Authenticated"
      else Except.error invalid_credentials

end Portal

namespace Cart

/-- Product record from task2 models.py lines 50-70; the float price is
modelled as a rational. -/
structure Product where
  id : Int
  name : String
  description : String
  price : Rat
  stock : Int
deriving DecidableEq, Repr

/-- Cart request payload from task2 models.py lines 92-106. -/
structure CartItem where
  product_id : Int
  quantity : Int
deriving DecidableEq, Repr

/-- Entry appended to the owner's cart (task2 main.py lines 174-180). -/
structure OwnedCartItem where
  product_id : Int
  product_name : String
  quantity : Int
  price : Rat
  total : Rat
deriving DecidableEq, Repr

/-- cart.json: a dictionary keyed by username; a missing key is created as
the empty list before the product checks run, so it reads as empty. -/
def CartDB := String → List OwnedCartItem

/-- Rewrite of one owner's cart inside the dictionary. -/
def dbSet (cart : CartDB) (username : String) (items : List OwnedCartItem) : CartDB :=
  fun v => if v = username then items else cart v

/-- Entry built at task2 main.py lines 174-180: the priced cart item the
handler appends. -/
def cart_item_of (product : Product) (item : CartItem) : OwnedCartItem :=
  { product_id := item.product_id, product_name := product.name,
    quantity := item.quantity, price := product.price,
    total := product.price * (item.quantity : Rat) }

/-- Model of add_to_cart (task2 main.py lines 138-192): 404 when no product
in the shared products list carries the requested id, 400 when the first
match has stock below the requested quantity, otherwise append the priced
item to the caller's cart and rewrite cart.json.  On both error paths the
exception is raised before the write, so the persisted cart is unchanged.
Stock is read, never decremented. -/
def add_to_cart (products : List Product) (cart : CartDB) (username : String)
    (item : CartItem) : CartDB × Except HTTPException OwnedCartItem :=
  match products.find? (fun p => p.id == item.product_id) with
  | none => (cart, Except.error { status_code := 404, detail := "Product not found" })
  | some product =>
      if product.stock < item.quantity then
        (cart, Except.error { status_code := 400, detail := "Insufficient stock" })
      else
        let cart_item : OwnedCartItem := cart_item_of product item
        (dbSet cart username (cart username ++ [cart_item]), Except.ok cart_item)

end Cart

section ClaimTheorems

/-- C4: each of the three token-validation failure modes — unverifiable
signature or malformed token, expired token, and a subject that no longer
resolves to a stored user — produces one and the same 401 response from
get_current_user, with no observable difference between the three cases. -/
theorem C4_uniform_unauthenticated (users : List JobAuth.User) (now : Nat)
    (tok1 tok2 tok3 : JobAuth.Token) (s : String)
    (h1 : tok1.sig ≠ JobAuth.SECRET_KEY)
    (h2 : tok2.sig = JobAuth.SECRET_KEY) (h2e : tok2.exp < now)
    (h3 : tok3.sig = JobAuth.SECRET_KEY) (h3e : ¬ tok3.exp < now)
    (h3s : tok3.sub = some s) (h3u : JobAuth.get_user users s = none) :
    JobAuth.get_current_user users tok1 now = Except.error JobAuth.credentials_exception ∧
    JobAuth.get_current_user users tok2 now = Except.error JobAuth.credentials_exception ∧
    JobAuth.get_current_user users tok3 now = Except.error JobAuth.credentials_exception := by
  refine ⟨?_, ?_, ?_⟩ <;>
    simp [JobAuth.get_current_user, JobAuth.jwt_decode, h1, h2, h2e, h3, h3e, h3s, h3u]

/-- Concrete instance of C4_uniform_unauthenticated: a forged token, an
expired token and a token whose subject is not stored all get the same 401. -/
theorem C4_uniform_unauthenticated_witness :
    JobAuth.get_current_user [] { sub := some "alice", exp := 100, sig := "forged" } 200 =
        Except.error JobAuth.credentials_exception ∧
    JobAuth.get_current_user [] { sub := some "alice", exp := 100, sig := JobAuth.SECRET_KEY } 200 =
        Except.error JobAuth.credentials_exception ∧
    JobAuth.get_current_user [] { sub := some "alice", exp := 300, sig := JobAuth.SECRET_KEY } 200 =
        Except.error JobAuth.credentials_exception :=
  C4_uniform_unauthenticated [] 200
    { sub := some "alice", exp := 100, sig := "forged" }
    { sub := some "alice", exp := 100, sig := JobAuth.SECRET_KEY }
    { sub := some "alice", exp := 300, sig := JobAuth.SECRET_KEY }
    "alice" (by decide) rfl (by decide) rfl (by decide) rfl rfl

/-- C5: a verification call that fails because the username is unknown and
one that fails because the password does not match the stored hash return
identical caller-visible outcomes, both for the job-tracker
authenticate_user and for the student-portal login handler. -/
theorem C5_no_username_enumeration
    (users : List JobAuth.User) (u1 p1 u2 p2 : String) (usr : JobAuth.User)
    (h1 : JobAuth.get_user users u1 = none)
    (h2 : JobAuth.get_user users u2 = some usr)
    (h2p : verify_password p2 usr.hashed_password = false)
    (students : Portal.Students) (v1 q1 v2 q2 : String) (st : Portal.Student)
    (g1 : students v1 = none)
    (g2 : students v2 = some st)
    (g2p : verify_password q2 st.password_hash = false) :
    JobAuth.authenticate_user users u1 p1 = JobAuth.authenticate_user users u2 p2 ∧
    Portal.login students v1 q1 = Portal.login students v2 q2 := by
  constructor
  · simp [JobAuth.authenticate_user, h1, h2, h2p]
  · simp [Portal.login, g1, g2, g2p]

/-- Concrete instance of C5_no_username_enumeration: one store holding only
bob, probed with an unknown username and with a wrong password for bob. -/
theorem C5_no_username_enumeration_witness :
    JobAuth.authenticate_user
        [{ username := "bob", email := "b@x", full_name := "Bob",
           hashed_password := get_password_hash 2 "secret" }] "alice" "anything" =
      JobAuth.authenticate_user
        [{ username := "bob", email := "b@x", full_name := "Bob",
           hashed_password := get_password_hash 2 "secret" }] "bob" "wrong" ∧
    Portal.login
        (fun v => if v = "bob" then
          some { username := "bob", password_hash := get_password_hash 2 "secret",
                 grades := [] } else none) "alice" "anything" =
      Portal.login
        (fun v => if v = "bob" then
          some { username := "bob", password_hash := get_password_hash 2 "secret",
                 grades := [] } else none) "bob" "wrong" :=
  C5_no_username_enumeration
    [{ username := "bob", email := "b@x", full_name := "Bob",
       hashed_password := get_password_hash 2 "secret" }]
    "alice" "anything" "bob" "wrong"
    { username := "bob", email := "b@x", full_name := "Bob",
      hashed_password := get_password_hash 2 "secret" }
    (by decide) (by decide) (by decide)
    (fun v => if v = "bob" then
      some { username := "bob", password_hash := get_password_hash 2 "secret",
             grades := [] } else none)
    "alice" "anything" "bob" "wrong"
    { username := "bob", password_hash := get_password_hash 2 "secret", grades := [] }
    (by decide) (by decide) (by decide)

/-- C9: a token issued for user a carries subject a and expiry 30 minutes
after issuance; validating it at any later time past the expiry fails; and a
successful validation never resolves to a user with any other username. -/
theorem C9_token_lifecycle (users : List JobAuth.User) (a : String)
    (now t : Nat) (u : JobAuth.User) :
    ((JobAuth.create_access_token a now).sub = some a ∧
     (JobAuth.create_access_token a now).exp = now + 30 * 60) ∧
    (t > (JobAuth.create_access_token a now).exp →
        JobAuth.get_current_user users (JobAuth.create_access_token a now) t =
          Except.error JobAuth.credentials_exception) ∧
    (JobAuth.get_current_user users (JobAuth.create_access_token a now) t = Except.ok u →
        u.username = a) := by
  have hdec : JobAuth.jwt_decode (JobAuth.create_access_token a now) JobAuth.SECRET_KEY t =
      if (JobAuth.create_access_token a now).exp < t then JobAuth.DecodeResult.expiredError
      else JobAuth.DecodeResult.payload (some a) := by
    simp [JobAuth.jwt_decode, JobAuth.create_access_token]
  refine ⟨⟨rfl, rfl⟩, ?_, ?_⟩
  · intro ht
    rw [JobAuth.get_current_user, hdec, if_pos ht]
  · intro hok
    by_cases hexp : (JobAuth.create_access_token a now).exp < t
    · rw [JobAuth.get_current_user, hdec, if_pos hexp] at hok
      exact absurd hok (by simp)
    · rw [JobAuth.get_current_user, hdec, if_neg hexp] at hok
      rcases hfind : JobAuth.get_user users a with _ | v
      · simp [hfind] at hok
      · simp [hfind] at hok
        have hp := List.find?_some hfind
        subst hok
        simpa using hp



/-- Scan characterization: a clean duplicate check means no stored user
carries the candidate username or email. -/
theorem dup_check_eq_none_iff (users : List JobAuth.User) (uc : JobAuth.UserCreate) :
    JobAuth.dup_check users uc = none ↔
      ∀ eu ∈ users, eu.username ≠ uc.username ∧ eu.email ≠ uc.email := by
  induction users with
  | nil => simp [JobAuth.dup_check]
  | cons y rest ih =>
    by_cases h1 : y.username = uc.username
    · simp [JobAuth.dup_check, h1]
    · by_cases h2 : y.email = uc.email
      · simp [JobAuth.dup_check, h1, h2]
      · simp [JobAuth.dup_check, h1, h2, ih]

/-- Every error the duplicate scan produces is a 400. -/
theorem dup_check_status (users : List JobAuth.User) (uc : JobAuth.UserCreate)
    (e : HTTPException) (h : JobAuth.dup_check users uc = some e) :
    e.status_code = 400 := by
  induction users with
  | nil => simp [JobAuth.dup_check] at h
  | cons y rest ih =>
    by_cases h1 : y.username = uc.username
    · simp [JobAuth.dup_check, h1] at h
      simp [← h]
    · by_cases h2 : y.email = uc.email
      · simp [JobAuth.dup_check, h1, h2] at h
        simp [← h]
      · simp [JobAuth.dup_check, h1, h2] at h
        exact ih h

/-- Lookup of a freshly appended record: when no earlier user matches, the
appended record is the one found. -/
theorem get_user_append_new (users : List JobAuth.User) (n : JobAuth.User)
    (h : ∀ eu ∈ users, eu.username ≠ n.username) :
    JobAuth.get_user (users ++ [n]) n.username = some n := by
  unfold JobAuth.get_user
  rw [List.find?_append]
  have h0 : users.find? (fun u => u.username == n.username) = none := by
    rw [List.find?_eq_none]
    intro x hx
    simpa using h x hx
  simp [h0]

/-- Lookup is unaffected by records appended after a hit. -/
theorem get_user_append_left (users more : List JobAuth.User) (uname : String)
    (u : JobAuth.User) (h : JobAuth.get_user users uname = some u) :
    JobAuth.get_user (users ++ more) uname = some u := by
  unfold JobAuth.get_user at *
  rw [List.find?_append, h]
  rfl

/-- C8: a successful registration stores a record found under its username
whose hash differs from the plaintext password, and authenticate_user
succeeds on the original credentials, returning that record. -/
theorem C8_register_hash_verify (users : List JobAuth.User)
    (uc : JobAuth.UserCreate) (salt : Nat)
    (users2 : List JobAuth.User) (resp : String)
    (h : JobAuth.register_user users uc salt = (users2, Except.ok resp)) :
    ∃ u : JobAuth.User,
      JobAuth.get_user users2 uc.username = some u ∧
      u.hashed_password ≠ uc.password ∧
      JobAuth.authenticate_user users2 uc.username uc.password = some u := by
  rcases hdc : JobAuth.dup_check users uc with _ | e
  · simp only [JobAuth.register_user, hdc] at h
    obtain ⟨h1, h2⟩ := Prod.mk.injEq .. ▸ h
    set n : JobAuth.User :=
      { username := uc.username, email := uc.email, full_name := uc.full_name,
        hashed_password := get_password_hash salt uc.password } with hn
    have hfresh : ∀ eu ∈ users, eu.username ≠ n.username := by
      intro eu heu
      exact ((dup_check_eq_none_iff users uc).mp hdc eu heu).1
    have hget : JobAuth.get_user (users ++ [n]) uc.username = some n :=
      get_user_append_new users n hfresh
    refine ⟨n, ?_, ?_, ?_⟩
    · rw [← h1]; exact hget
    · exact get_password_hash_ne_plain salt uc.password
    · rw [← h1]
      have hv : verify_password uc.password (get_password_hash salt uc.password) = true :=
        verify_password_hash salt uc.password
      simp [JobAuth.authenticate_user, hget, hn, hv]
  · simp only [JobAuth.register_user, hdc] at h
    obtain ⟨h1, h2⟩ := Prod.mk.injEq .. ▸ h
    exact absurd h2 (by simp)

/-- Concrete instance of C8_register_hash_verify: alice registered into the
empty store. -/
theorem C8_register_hash_verify_witness :
    ∃ u : JobAuth.User,
      JobAuth.get_user
        (JobAuth.register_user [] ⟨"alice", "a@x", "secret123", "Alice"⟩ 3).1 "alice" = some u ∧
      u.hashed_password ≠ "secret123" ∧
      JobAuth.authenticate_user
        (JobAuth.register_user [] ⟨"alice", "a@x", "secret123", "Alice"⟩ 3).1
        "alice" "secret123" = some u :=
  C8_register_hash_verify [] ⟨"alice", "a@x", "secret123", "Alice"⟩ 3
    (JobAuth.register_user [] ⟨"alice", "a@x", "secret123", "Alice"⟩ 3).1
    "User alice registered successfully!" rfl

/-- C6 as frozen fails on the job tracker: after user1 registers, user2 is a
fresh username (the store holds only user1), yet registering it is rejected
because its email coincides with user1's, so registering two distinct fresh
usernames does not always succeed. -/
theorem C6_counterexample :
    ((JobAuth.register_user [] ⟨"user1", "shared@x", "pw1111", "U One"⟩ 1).1.map
        JobAuth.User.username) = ["user1"] ∧
    (JobAuth.register_user [] ⟨"user1", "shared@x", "pw1111", "U One"⟩ 1).2 =
      Except.ok "User user1 registered successfully!" ∧
    (JobAuth.register_user
        (JobAuth.register_user [] ⟨"user1", "shared@x", "pw1111", "U One"⟩ 1).1
        ⟨"user2", "shared@x", "pw2222", "U Two"⟩ 2).2 =
      Except.error { status_code := 400, detail := "Email already registered" } :=
  ⟨rfl, rfl, rfl⟩

/-- C6 amended: registering an already-present username fails with a
duplicate-rejection error (400 in the job tracker, 409 in the student
portal) and leaves the credential store unchanged; and registering two
distinct fresh usernames succeeds, with both records afterwards
independently retrievable by find, provided the two emails are also
distinct and fresh in the job tracker, which additionally rejects duplicate
emails.  The student portal stores no email and needs no email proviso. -/
theorem C6_amended_registration :
    (∀ (users : List JobAuth.User) (uc : JobAuth.UserCreate) (salt : Nat),
      (∃ eu ∈ users, eu.username = uc.username) →
      (JobAuth.register_user users uc salt).1 = users ∧
      ∃ e, (JobAuth.register_user users uc salt).2 = Except.error e ∧
        e.status_code = 400) ∧
    (∀ (students : Portal.Students) (username password : String) (salt : Nat),
      (students username).isSome →
      (Portal.register students username password salt).1 = students ∧
      (Portal.register students username password salt).2 =
        Except.error { status_code := 409, detail := "Username already exists" }) ∧
    (∀ (users : List JobAuth.User) (u1 u2 : JobAuth.UserCreate) (salt1 salt2 : Nat),
      JobAuth.dup_check users u1 = none → JobAuth.dup_check users u2 = none →
      u1.username ≠ u2.username → u1.email ≠ u2.email →
      ∃ r1 r2 : JobAuth.User,
        (JobAuth.register_user users u1 salt1).2 =
          Except.ok ("User " ++ u1.username ++ " registered successfully!") ∧
        (JobAuth.register_user (JobAuth.register_user users u1 salt1).1 u2 salt2).2 =
          Except.ok ("User " ++ u2.username ++ " registered successfully!") ∧
        JobAuth.get_user
          (JobAuth.register_user (JobAuth.register_user users u1 salt1).1 u2 salt2).1
          u1.username = some r1 ∧
        r1.username = u1.username ∧
        JobAuth.get_user
          (JobAuth.register_user (JobAuth.register_user users u1 salt1).1 u2 salt2).1
          u2.username = some r2 ∧
        r2.username = u2.username) ∧
    (∀ (students : Portal.Students) (w1 w2 pw1 pw2 : String) (s1 s2 : Nat),
      students w1 = none → students w2 = none → w1 ≠ w2 →
      (Portal.register students w1 pw1 s1).2 = Except.ok "Registered" ∧
      (Portal.register (Portal.register students w1 pw1 s1).1 w2 pw2 s2).2 =
        Except.ok "Registered" ∧
      (Portal.register (Portal.register students w1 pw1 s1).1 w2 pw2 s2).1 w1 =
        some ⟨w1, get_password_hash s1 pw1, []⟩ ∧
      (Portal.register (Portal.register students w1 pw1 s1).1 w2 pw2 s2).1 w2 =
        some ⟨w2, get_password_hash s2 pw2, []⟩) := by
  refine ⟨?_, ?_, ?_, ?_⟩
  · rintro users uc salt ⟨eu, heu, hname⟩
    rcases hdc : JobAuth.dup_check users uc with _ | e
    · exact absurd hname ((dup_check_eq_none_iff users uc).mp hdc eu heu).1
    · refine ⟨by simp [JobAuth.register_user, hdc],
        e, by simp [JobAuth.register_user, hdc], dup_check_status users uc e hdc⟩
  · intro students username password salt hsome
    exact ⟨by simp [Portal.register, hsome], by simp [Portal.register, hsome]⟩
  · intro users u1 u2 salt1 salt2 hc1 hc2 hu he
    have hreg1 : (JobAuth.register_user users u1 salt1).1 =
        users ++ [⟨u1.username, u1.email, u1.full_name, get_password_hash salt1 u1.password⟩] := by
      simp [JobAuth.register_user, hc1]
    have hfresh1 : ∀ eu ∈ users ++
        [(⟨u1.username, u1.email, u1.full_name, get_password_hash salt1 u1.password⟩ : JobAuth.User)],
        eu.username ≠ u2.username ∧ eu.email ≠ u2.email := by
      intro eu heu
      rcases List.mem_append.mp heu with h | h
      · exact (dup_check_eq_none_iff users u2).mp hc2 eu h
      · rcases List.mem_singleton.mp h with rfl
        exact ⟨hu, he⟩
    have hc2a : JobAuth.dup_check (users ++
        [(⟨u1.username, u1.email, u1.full_name, get_password_hash salt1 u1.password⟩ : JobAuth.User)]) u2 = none :=
      (dup_check_eq_none_iff _ _).mpr hfresh1
    have hfreshA : ∀ eu ∈ users, eu.username ≠ u1.username := by
      intro eu heu
      exact ((dup_check_eq_none_iff users u1).mp hc1 eu heu).1
    refine ⟨⟨u1.username, u1.email, u1.full_name, get_password_hash salt1 u1.password⟩,
      ⟨u2.username, u2.email, u2.full_name, get_password_hash salt2 u2.password⟩,
      by simp [JobAuth.register_user, hc1], ?_, ?_, rfl, ?_, rfl⟩
    · rw [hreg1]
      simp [JobAuth.register_user, hc2a]
    · rw [hreg1]
      have hstep : (JobAuth.register_user (users ++
          [(⟨u1.username, u1.email, u1.full_name, get_password_hash salt1 u1.password⟩ : JobAuth.User)]) u2 salt2).1 =
          (users ++ [(⟨u1.username, u1.email, u1.full_name, get_password_hash salt1 u1.password⟩ : JobAuth.User)]) ++
          [(⟨u2.username, u2.email, u2.full_name, get_password_hash salt2 u2.password⟩ : JobAuth.User)] := by
        simp [JobAuth.register_user, hc2a]
      rw [hstep]
      exact get_user_append_left _ _ _ _ (get_user_append_new users _ hfreshA)
    · rw [hreg1]
      have hstep : (JobAuth.register_user (users ++
          [(⟨u1.username, u1.email, u1.full_name, get_password_hash salt1 u1.password⟩ : JobAuth.User)]) u2 salt2).1 =
          (users ++ [(⟨u1.username, u1.email, u1.full_name, get_password_hash salt1 u1.password⟩ : JobAuth.User)]) ++
          [(⟨u2.username, u2.email, u2.full_name, get_password_hash salt2 u2.password⟩ : JobAuth.User)] := by
        simp [JobAuth.register_user, hc2a]
      rw [hstep]
      exact get_user_append_new _ _ (fun eu heu => (hfresh1 eu heu).1)
  · intro students w1 w2 pw1 pw2 s1 s2 h1 h2 hne
    have hne2 : w2 ≠ w1 := Ne.symm hne
    refine ⟨by simp [Portal.register, h1], ?_, ?_, ?_⟩
    · simp [Portal.register, Portal.dbSet, h1, h2, hne2]
    · simp [Portal.register, Portal.dbSet, h1, h2, hne, hne2]
    · simp [Portal.register, Portal.dbSet, h1, h2, hne, hne2]

/-- Concrete instance of C6_amended_registration: a duplicate username
rejected in both services, and two fresh registrations both retrievable in
both services. -/
theorem C6_amended_registration_witness :
    ((JobAuth.register_user [⟨"alice", "a@x", "Alice", "h"⟩]
        ⟨"alice", "b@x", "pw1234", "A Two"⟩ 0).1 = [⟨"alice", "a@x", "Alice", "h"⟩] ∧
      ∃ e, (JobAuth.register_user [⟨"alice", "a@x", "Alice", "h"⟩]
        ⟨"alice", "b@x", "pw1234", "A Two"⟩ 0).2 = Except.error e ∧ e.status_code = 400) ∧
    ((Portal.register (fun v => if v = "bob" then some ⟨"bob", "hh", []⟩ else none)
        "bob" "pw1234" 0).1 = (fun v => if v = "bob" then some ⟨"bob", "hh", []⟩ else none) ∧
      (Portal.register (fun v => if v = "bob" then some ⟨"bob", "hh", []⟩ else none)
        "bob" "pw1234" 0).2 =
        Except.error { status_code := 409, detail := "Username already exists" }) ∧
    (∃ r1 r2 : JobAuth.User,
      (JobAuth.register_user [] ⟨"u1", "e1@x", "pw1", "A"⟩ 0).2 =
        Except.ok ("User " ++ "u1" ++ " registered successfully!") ∧
      (JobAuth.register_user (JobAuth.register_user [] ⟨"u1", "e1@x", "pw1", "A"⟩ 0).1
        ⟨"u2", "e2@x", "pw2", "B"⟩ 1).2 =
        Except.ok ("User " ++ "u2" ++ " registered successfully!") ∧
      JobAuth.get_user (JobAuth.register_user (JobAuth.register_user []
        ⟨"u1", "e1@x", "pw1", "A"⟩ 0).1 ⟨"u2", "e2@x", "pw2", "B"⟩ 1).1 "u1" = some r1 ∧
      r1.username = "u1" ∧
      JobAuth.get_user (JobAuth.register_user (JobAuth.register_user []
        ⟨"u1", "e1@x", "pw1", "A"⟩ 0).1 ⟨"u2", "e2@x", "pw2", "B"⟩ 1).1 "u2" = some r2 ∧
      r2.username = "u2") ∧
    ((Portal.register (fun _ => none) "a" "p1" 0).2 = Except.ok "Registered" ∧
      (Portal.register (Portal.register (fun _ => none) "a" "p1" 0).1 "b" "p2" 1).2 =
        Except.ok "Registered" ∧
      (Portal.register (Portal.register (fun _ => none) "a" "p1" 0).1 "b" "p2" 1).1 "a" =
        some ⟨"a", get_password_hash 0 "p1", []⟩ ∧
      (Portal.register (Portal.register (fun _ => none) "a" "p1" 0).1 "b" "p2" 1).1 "b" =
        some ⟨"b", get_password_hash 1 "p2", []⟩) :=
  ⟨C6_amended_registration.1 [⟨"alice", "a@x", "Alice", "h"⟩]
      ⟨"alice", "b@x", "pw1234", "A Two"⟩ 0 ⟨⟨"alice", "a@x", "Alice", "h"⟩, by simp, rfl⟩,
    C6_amended_registration.2.1 (fun v => if v = "bob" then some ⟨"bob", "hh", []⟩ else none)
      "bob" "pw1234" 0 (by decide),
    C6_amended_registration.2.2.1 [] ⟨"u1", "e1@x", "pw1", "A"⟩ ⟨"u2", "e2@x", "pw2", "B"⟩ 0 1
      rfl rfl (by decide) (by decide),
    C6_amended_registration.2.2.2 (fun _ => none) "a" "b" "p1" "p2" 0 1 rfl rfl (by decide)⟩

/-- Request sequence refuting C1: add two notes, delete note 1, add a third. -/
def c1_ops : List Notes.NoteOp :=
  [Notes.NoteOp.addOp ⟨"a", "x"⟩ "t1", Notes.NoteOp.addOp ⟨"b", "y"⟩ "t2",
   Notes.NoteOp.deleteOp 1, Notes.NoteOp.addOp ⟨"c", "z"⟩ "t3"]

/-- Request sequence showing a deleted id being assigned again: add note 1,
delete it, add again. -/
def c1_ops2 : List Notes.NoteOp :=
  [Notes.NoteOp.addOp ⟨"a", "x"⟩ "t1", Notes.NoteOp.deleteOp 1,
   Notes.NoteOp.addOp ⟨"b", "y"⟩ "t2"]

/-- C1 fails as stated on the notes service.  After add, add, delete id 1,
add, the new note is assigned id count+1 = 2 while the survivor still has
id 2, so the ids are not pairwise distinct; and after add, delete id 1, add,
the id 1 removed by the deletion is assigned again. -/
theorem C1_counterexample :
    (Notes.run_ops c1_ops).map Notes.Note.id = [2, 2] ∧
    ¬ ((Notes.run_ops c1_ops).map Notes.Note.id).Nodup ∧
    (Notes.run_ops c1_ops2).map Notes.Note.id = [1] := by
  refine ⟨rfl, ?_, rfl⟩
  have h : (Notes.run_ops c1_ops).map Notes.Note.id = [2, 2] := rfl
  rw [h]
  decide

/-- Identifier layout of an add-only run: starting from a collection whose
ids read 1..k in order, n further adds extend that to 1..k+n. -/
theorem run_adds_ids (adds : List (Notes.NoteCreate × String)) :
    ∀ start : List Notes.Note,
      start.map Notes.Note.id = (List.range' 1 start.length).map Int.ofNat →
      ((adds.map (fun p => Notes.NoteOp.addOp p.1 p.2)).foldl Notes.apply_op start).map
          Notes.Note.id = (List.range' 1 (start.length + adds.length)).map Int.ofNat := by
  induction adds with
  | nil => intro start h; simpa using h
  | cons p rest ih =>
    intro start h
    simp only [List.map_cons, List.foldl_cons]
    have hlen : (Notes.apply_op start (Notes.NoteOp.addOp p.1 p.2)).length =
        start.length + 1 := by
      simp [Notes.apply_op, Notes.add_note_core]
    have hstep : (Notes.apply_op start (Notes.NoteOp.addOp p.1 p.2)).map Notes.Note.id =
        (List.range' 1 ((Notes.apply_op start (Notes.NoteOp.addOp p.1 p.2)).length)).map
          Int.ofNat := by
      rw [hlen]
      simp only [Notes.apply_op, Notes.add_note_core, List.map_append, h,
        List.range'_1_concat, List.map_cons, List.map_nil]
      congr 1
      simp only [List.cons.injEq, and_true, Int.ofNat_eq_coe]
      omega
    have hres := ih (Notes.apply_op start (Notes.NoteOp.addOp p.1 p.2)) hstep
    rw [hlen] at hres
    rw [hres, show start.length + 1 + rest.length = start.length + (rest.length + 1) from by omega]
    simp

/-- C1 amended: a new note's id is always the owner's current count plus
one; in any deletion-free request sequence the ids read exactly 1..n and are
pairwise distinct; deletion never renumbers the survivors, which remain
unchanged in order; but after a deletion the count drops, so a later add can
reissue a previously deleted id and ids can collide (see the
counterexample). -/
theorem C1_amended_id_discipline :
    (∀ (notes : List Notes.Note) (note : Notes.NoteCreate) (now : String),
      ((Notes.add_note_core notes note now).1).id = (notes.length : Int) + 1) ∧
    (∀ adds : List (Notes.NoteCreate × String),
      (Notes.run_ops (adds.map (fun p => Notes.NoteOp.addOp p.1 p.2))).map Notes.Note.id =
        (List.range' 1 adds.length).map Int.ofNat ∧
      ((Notes.run_ops (adds.map (fun p => Notes.NoteOp.addOp p.1 p.2))).map
        Notes.Note.id).Nodup) ∧
    (∀ (notes : List Notes.Note) (note_id : Int) (remaining : List Notes.Note),
      Notes.delete_note_core notes note_id = Except.ok remaining →
      remaining.Sublist notes ∧ ∀ n ∈ notes, n.id ≠ note_id → n ∈ remaining) := by
  refine ⟨fun _ _ _ => rfl, ?_, ?_⟩
  · intro adds
    have h := run_adds_ids adds [] (by simp)
    simp only [List.length_nil, Nat.zero_add] at h
    have h2 : (Notes.run_ops (adds.map (fun p => Notes.NoteOp.addOp p.1 p.2))).map
        Notes.Note.id = (List.range' 1 adds.length).map Int.ofNat := by
      simpa [Notes.run_ops] using h
    refine ⟨h2, ?_⟩
    rw [h2]
    exact (List.nodup_range' 1 adds.length).map fun a b hab => Int.ofNat.inj hab
  · intro notes note_id remaining h
    simp only [Notes.delete_note_core] at h
    by_cases hl : (notes.filter (fun n => n.id != note_id)).length = notes.length
    · simp [hl] at h
    · simp only [hl, if_false, Except.ok.injEq] at h
      subst h
      refine ⟨List.filter_sublist notes, ?_⟩
      intro n hn hne
      exact List.mem_filter.mpr ⟨hn, by simpa using hne⟩

/-- Concrete instance of C1_amended_id_discipline: the first note of an
empty collection gets id 1, and deleting id 1 from a two-note collection
keeps the untouched survivor with id 2. -/
theorem C1_amended_id_discipline_witness :
    ((Notes.add_note_core [] ⟨"a", "b"⟩ "t").1).id = 1 ∧
    [(⟨2, "b", "y", "t2", "t2"⟩ : Notes.Note)].Sublist
      [⟨1, "a", "x", "t1", "t1"⟩, ⟨2, "b", "y", "t2", "t2"⟩] ∧
    (⟨2, "b", "y", "t2", "t2"⟩ : Notes.Note) ∈ [(⟨2, "b", "y", "t2", "t2"⟩ : Notes.Note)] :=
  ⟨C1_amended_id_discipline.1 [] ⟨"a", "b"⟩ "t",
   (C1_amended_id_discipline.2.2 [⟨1, "a", "x", "t1", "t1"⟩, ⟨2, "b", "y", "t2", "t2"⟩] 1
      [⟨2, "b", "y", "t2", "t2"⟩] rfl).1,
   (C1_amended_id_discipline.2.2 [⟨1, "a", "x", "t1", "t1"⟩, ⟨2, "b", "y", "t2", "t2"⟩] 1
      [⟨2, "b", "y", "t2", "t2"⟩] rfl).2 ⟨2, "b", "y", "t2", "t2"⟩ (by simp) (by decide)⟩

/-- C3: add followed by list_for_owner returns a collection containing the
added record, whose freshly assigned id is the owner's previous count plus
one; proved for the notes service and for the job tracker. -/
theorem C3_add_list_roundtrip (ndb : Notes.NotesDB) (nu : String)
    (note : Notes.NoteCreate) (nnow : String)
    (jdb : Jobs.JobsDB) (ju : String) (app : Jobs.JobApplicationCreate) (d : String) :
    ((Notes.add_note ndb nu note nnow).1 ∈
        Notes.get_my_notes (Notes.add_note ndb nu note nnow).2 nu ∧
      ((Notes.add_note ndb nu note nnow).1).id =
        ((Notes.get_my_notes ndb nu).length : Int) + 1) ∧
    ((Jobs.add_job_application jdb ju app d).1 ∈
        Jobs.get_my_applications (Jobs.add_job_application jdb ju app d).2 ju ∧
      ((Jobs.add_job_application jdb ju app d).1).id =
        ((Jobs.get_my_applications jdb ju).length : Int) + 1) := by
  refine ⟨⟨?_, rfl⟩, ⟨?_, rfl⟩⟩
  · simp [Notes.add_note, Notes.add_note_core, Notes.get_my_notes, Notes.dbSet]
  · simp [Jobs.add_job_application, Jobs.get_my_applications, Jobs.dbSet]

/-- Store used to evaluate C2: john_doe owns one application with id 1 and
alice owns one note with id 1. -/
def c2_jobs_db : Jobs.JobsDB :=
  fun v => if v = "john_doe" then
    some [⟨1, "Dev", "Tech Corp", "2025-08-26", "applied", none⟩] else none

/-- Note store used alongside c2_jobs_db to evaluate C2. -/
def c2_notes_db : Notes.NotesDB :=
  fun v => if v = "alice" then
    some [⟨1, "Shopping List", "Milk, Eggs", "t1", "t1"⟩] else none

/-- C2 evaluated on the code.  In the job tracker, updating a missing id
does not produce the 404 the claim and the code's own detail string intend:
the str parameter named status shadows the fastapi status module, so the
raise evaluates status.HTTP_404_NOT_FOUND on a str and the AttributeError
surfaces as a 500; the collection is nevertheless unchanged.  In the notes
service both update and delete of a missing id do return 404 and leave the
collection unchanged. -/
theorem C2_code_bug_evaluation :
    (Jobs.update_application_status c2_jobs_db "john_doe" 5 "interview").2 =
      Except.error (Jobs.PyError.attributeError
        "str object has no attribute HTTP_404_NOT_FOUND") ∧
    Jobs.httpStatusOf (Jobs.PyError.attributeError
        "str object has no attribute HTTP_404_NOT_FOUND") = 500 ∧
    (Jobs.update_application_status c2_jobs_db "john_doe" 5 "interview").1 "john_doe" =
      some [⟨1, "Dev", "Tech Corp", "2025-08-26", "applied", none⟩] ∧
    (Notes.update_note c2_notes_db "alice" 5 ⟨"t", "c"⟩ "now").2 =
      Except.error Notes.note_not_found ∧
    (Notes.update_note c2_notes_db "alice" 5 ⟨"t", "c"⟩ "now").1 "alice" =
      some [⟨1, "Shopping List", "Milk, Eggs", "t1", "t1"⟩] ∧
    (Notes.delete_note c2_notes_db "alice" 5).2 = Except.error Notes.note_not_found ∧
    (Notes.delete_note c2_notes_db "alice" 5).1 "alice" =
      some [⟨1, "Shopping List", "Milk, Eggs", "t1", "t1"⟩] :=
  ⟨rfl, rfl, rfl, rfl, rfl, rfl, rfl⟩

/-- C7: for an authenticated caller, add_to_cart returns 404 exactly when
the requested product id is absent from the shared product collection;
when the first matching product exists it returns 400 exactly when the
requested quantity exceeds that product's stock, and otherwise succeeds and
appends the priced item to the caller's cart.  The persisted cart is
unchanged on both failure paths. -/
theorem C7_add_to_cart_cases (products : List Cart.Product) (cart : Cart.CartDB)
    (username : String) (item : Cart.CartItem) :
    (products.find? (fun p => p.id == item.product_id) = none →
      (Cart.add_to_cart products cart username item).2 =
        Except.error { status_code := 404, detail := "Product not found" } ∧
      (Cart.add_to_cart products cart username item).1 username = cart username) ∧
    (∀ product, products.find? (fun p => p.id == item.product_id) = some product →
      (item.quantity > product.stock →
        (Cart.add_to_cart products cart username item).2 =
          Except.error { status_code := 400, detail := "Insufficient stock" } ∧
        (Cart.add_to_cart products cart username item).1 username = cart username) ∧
      (¬ item.quantity > product.stock →
        (Cart.add_to_cart products cart username item).2 =
          Except.ok (Cart.cart_item_of product item) ∧
        (Cart.add_to_cart products cart username item).1 username =
          cart username ++ [Cart.cart_item_of product item])) := by
  refine ⟨?_, ?_⟩
  · intro hnone
    refine ⟨?_, ?_⟩ <;> simp [Cart.add_to_cart, hnone]
  · intro product hfound
    refine ⟨?_, ?_⟩
    · intro hq
      have hq1 : product.stock < item.quantity := hq
      refine ⟨?_, ?_⟩ <;> simp [Cart.add_to_cart, hfound, hq1]
    · intro hq
      have hq2 : ¬ product.stock < item.quantity := fun hc => hq hc
      refine ⟨?_, ?_⟩ <;> simp [Cart.add_to_cart, hfound, hq2, Cart.dbSet]

/-- Concrete instance of C7_add_to_cart_cases — the spec scenario: a Mouse
with stock 5, a request for 6 rejected with 400, a request for 3 accepted
and appended, and a lookup of an id that is not stocked rejected with 404. -/
theorem C7_add_to_cart_cases_witness :
    ((Cart.add_to_cart [] (fun _ => []) "customer1" ⟨1, 1⟩).2 =
      Except.error { status_code := 404, detail := "Product not found" } ∧
     (Cart.add_to_cart [] (fun _ => []) "customer1" ⟨1, 1⟩).1 "customer1" =
       (fun _ => ([] : List Cart.OwnedCartItem)) "customer1") ∧
    ((Cart.add_to_cart [⟨1, "Mouse", "m", 2999/100, 5⟩] (fun _ => []) "customer1" ⟨1, 6⟩).2 =
      Except.error { status_code := 400, detail := "Insufficient stock" } ∧
     (Cart.add_to_cart [⟨1, "Mouse", "m", 2999/100, 5⟩] (fun _ => []) "customer1" ⟨1, 6⟩).1
        "customer1" = (fun _ => ([] : List Cart.OwnedCartItem)) "customer1") ∧
    ((Cart.add_to_cart [⟨1, "Mouse", "m", 2999/100, 5⟩] (fun _ => []) "customer1" ⟨1, 3⟩).2 =
      Except.ok (Cart.cart_item_of ⟨1, "Mouse", "m", 2999/100, 5⟩ ⟨1, 3⟩) ∧
     (Cart.add_to_cart [⟨1, "Mouse", "m", 2999/100, 5⟩] (fun _ => []) "customer1" ⟨1, 3⟩).1
        "customer1" = (fun _ => ([] : List Cart.OwnedCartItem)) "customer1" ++
          [Cart.cart_item_of ⟨1, "Mouse", "m", 2999/100, 5⟩ ⟨1, 3⟩]) :=
  ⟨(C7_add_to_cart_cases [] (fun _ => []) "customer1" ⟨1, 1⟩).1 rfl,
   ((C7_add_to_cart_cases [⟨1, "Mouse", "m", 2999/100, 5⟩] (fun _ => []) "customer1"
      ⟨1, 6⟩).2 ⟨1, "Mouse", "m", 2999/100, 5⟩ rfl).1 (by decide),
   ((C7_add_to_cart_cases [⟨1, "Mouse", "m", 2999/100, 5⟩] (fun _ => []) "customer1"
      ⟨1, 3⟩).2 ⟨1, "Mouse", "m", 2999/100, 5⟩ rfl).2 (by decide)⟩

/-- Characterization of the update loop: on success it returns the modified
copy of the first note whose id matches, together with the list in which
exactly that position is overwritten. -/
theorem update_first_spec (note_id : Int) (note_update : Notes.NoteCreate) (now : String) :
    ∀ (notes notes2 : List Notes.Note) (updated_note : Notes.Note),
      Notes.update_first notes note_id note_update now = some (updated_note, notes2) →
      ∃ i : Fin notes.length,
        (notes.get i).id = note_id ∧
        updated_note = ⟨(notes.get i).id, note_update.title, note_update.content,
          (notes.get i).date_created, now⟩ ∧
        notes2 = notes.set i updated_note := by
  intro notes
  induction notes with
  | nil => intro notes2 un h; simp [Notes.update_first] at h
  | cons note rest ih =>
    intro notes2 un h
    by_cases hid : note.id = note_id
    · simp only [Notes.update_first, hid, if_true, Option.some.injEq, Prod.mk.injEq] at h
      obtain ⟨h1, h2⟩ := h
      refine ⟨⟨0, by simp⟩, hid, ?_, ?_⟩
      · rw [← h1]
        simp [hid]
      · rw [← h2, ← h1]
        simp [hid]
    · simp only [Notes.update_first, hid, if_false] at h
      rcases hrec : Notes.update_first rest note_id note_update now with _ | pr
      · rw [hrec] at h
        simp at h
      · obtain ⟨un2, rest2⟩ := pr
        rw [hrec] at h
        simp only [Option.some.injEq, Prod.mk.injEq] at h
        obtain ⟨h1, h2⟩ := h
        obtain ⟨j, hj1, hj2, hj3⟩ := ih rest2 un2 hrec
        refine ⟨j.succ, by simpa using hj1, ?_, ?_⟩
        · rw [← h1, hj2]
          simp
        · rw [← h2, hj3, ← h1]
          simp

/-- C10: a successful update_note rewrites exactly the first note of the
owner whose id matches: that note keeps its id and date_created and takes
the new title, content and the refreshed date_updated; every other position
of the owner's collection, the collection's length and order, and every
other owner's collection are unchanged. -/
theorem C10_update_note_frame (db : Notes.NotesDB) (username : String) (note_id : Int)
    (note_update : Notes.NoteCreate) (now : String) (notes : List Notes.Note)
    (updated_note : Notes.Note) (db2 : Notes.NotesDB)
    (hn : db username = some notes)
    (h : Notes.update_note db username note_id note_update now =
      (db2, Except.ok updated_note)) :
    ∃ i : Fin notes.length,
      (notes.get i).id = note_id ∧
      updated_note.id = (notes.get i).id ∧
      updated_note.date_created = (notes.get i).date_created ∧
      updated_note.title = note_update.title ∧
      updated_note.content = note_update.content ∧
      updated_note.date_updated = now ∧
      db2 username = some (notes.set i updated_note) ∧
      (notes.set i updated_note).length = notes.length ∧
      (∀ j : Nat, j ≠ (i : Nat) → (notes.set i updated_note).get? j = notes.get? j) ∧
      (∀ v, v ≠ username → db2 v = db v) := by
  simp only [Notes.update_note, hn] at h
  rcases hupd : Notes.update_first notes note_id note_update now with _ | pr
  · rw [hupd] at h
    simp at h
  · obtain ⟨un2, notes2⟩ := pr
    rw [hupd] at h
    simp only [Prod.mk.injEq, Except.ok.injEq] at h
    obtain ⟨h1, h2⟩ := h
    obtain ⟨i, hi1, hi2, hi3⟩ := update_first_spec note_id note_update now notes notes2 un2 hupd
    subst h2
    refine ⟨i, hi1, ?_, ?_, ?_, ?_, ?_, ?_, ?_, ?_, ?_⟩
    · rw [hi2]
    · rw [hi2]
    · rw [hi2]
    · rw [hi2]
    · rw [hi2]
    · rw [← h1, ← hi3]
      simp [Notes.dbSet]
    · simp
    · intro j hj
      simp only [List.get?_eq_getElem?]
      exact List.getElem?_set_ne (fun hc => hj hc.symm)
    · intro v hv
      rw [← h1]
      simp [Notes.dbSet, hv]

/-- Note store used to instantiate C10: alice owns notes with ids 1 and 2. -/
def c10_db : Notes.NotesDB :=
  fun v => if v = "alice" then
    some [⟨1, "a", "x", "t1", "t1"⟩, ⟨2, "b", "y", "t2", "t2"⟩] else none

/-- Concrete instance of C10_update_note_frame: updating alice's note 2
with a new title and content at time t9. -/
theorem C10_update_note_frame_witness :
    ∃ i : Fin ([(⟨1, "a", "x", "t1", "t1"⟩ : Notes.Note), ⟨2, "b", "y", "t2", "t2"⟩]).length,
      (([(⟨1, "a", "x", "t1", "t1"⟩ : Notes.Note), ⟨2, "b", "y", "t2", "t2"⟩]).get i).id = 2 ∧
      (⟨2, "nt", "nc", "t2", "t9"⟩ : Notes.Note).id =
        (([(⟨1, "a", "x", "t1", "t1"⟩ : Notes.Note), ⟨2, "b", "y", "t2", "t2"⟩]).get i).id ∧
      (⟨2, "nt", "nc", "t2", "t9"⟩ : Notes.Note).date_created =
        (([(⟨1, "a", "x", "t1", "t1"⟩ : Notes.Note),
          ⟨2, "b", "y", "t2", "t2"⟩]).get i).date_created ∧
      (⟨2, "nt", "nc", "t2", "t9"⟩ : Notes.Note).title =
        (⟨"nt", "nc"⟩ : Notes.NoteCreate).title ∧
      (⟨2, "nt", "nc", "t2", "t9"⟩ : Notes.Note).content =
        (⟨"nt", "nc"⟩ : Notes.NoteCreate).content ∧
      (⟨2, "nt", "nc", "t2", "t9"⟩ : Notes.Note).date_updated = "t9" ∧
      (Notes.update_note c10_db "alice" 2 ⟨"nt", "nc"⟩ "t9").1 "alice" =
        some (([(⟨1, "a", "x", "t1", "t1"⟩ : Notes.Note), ⟨2, "b", "y", "t2", "t2"⟩]).set i
          ⟨2, "nt", "nc", "t2", "t9"⟩) ∧
      (([(⟨1, "a", "x", "t1", "t1"⟩ : Notes.Note), ⟨2, "b", "y", "t2", "t2"⟩]).set i
          ⟨2, "nt", "nc", "t2", "t9"⟩).length =
        ([(⟨1, "a", "x", "t1", "t1"⟩ : Notes.Note), ⟨2, "b", "y", "t2", "t2"⟩]).length ∧
      (∀ j : Nat, j ≠ (i : Nat) →
        (([(⟨1, "a", "x", "t1", "t1"⟩ : Notes.Note), ⟨2, "b", "y", "t2", "t2"⟩]).set i
          ⟨2, "nt", "nc", "t2", "t9"⟩).get? j =
        ([(⟨1, "a", "x", "t1", "t1"⟩ : Notes.Note), ⟨2, "b", "y", "t2", "t2"⟩]).get? j) ∧
      (∀ v, v ≠ "alice" →
        (Notes.update_note c10_db "alice" 2 ⟨"nt", "nc"⟩ "t9").1 v = c10_db v) :=
  C10_update_note_frame c10_db "alice" 2 ⟨"nt", "nc"⟩ "t9"
    [⟨1, "a", "x", "t1", "t1"⟩, ⟨2, "b", "y", "t2", "t2"⟩]
    ⟨2, "nt", "nc", "t2", "t9"⟩
    (Notes.update_note c10_db "alice" 2 ⟨"nt", "nc"⟩ "t9").1 rfl rfl

/-- Concrete instance of C9_token_lifecycle: a token for john_doe issued at
time 0 carries subject john_doe and expiry 1800 seconds, fails validation at
time 1801, and at time 10 validates to the stored record, whose username is
john_doe. -/
theorem C9_token_lifecycle_witness :
    ((JobAuth.create_access_token "john_doe" 0).sub = some "john_doe" ∧
     (JobAuth.create_access_token "john_doe" 0).exp = 0 + 30 * 60) ∧
    JobAuth.get_current_user [⟨"john_doe", "j@x", "John Doe", "h"⟩]
      (JobAuth.create_access_token "john_doe" 0) 1801 =
      Except.error JobAuth.credentials_exception ∧
    (⟨"john_doe", "j@x", "John Doe", "h"⟩ : JobAuth.User).username = "john_doe" :=
  ⟨(C9_token_lifecycle [⟨"john_doe", "j@x", "John Doe", "h"⟩] "john_doe" 0 1801
      ⟨"john_doe", "j@x", "John Doe", "h"⟩).1,
   (C9_token_lifecycle [⟨"john_doe", "j@x", "John Doe", "h"⟩] "john_doe" 0 1801
      ⟨"john_doe", "j@x", "John Doe", "h"⟩).2.1 (by decide),
   (C9_token_lifecycle [⟨"john_doe", "j@x", "John Doe", "h"⟩] "john_doe" 0 10
      ⟨"john_doe", "j@x", "John Doe", "h"⟩).2.2 rfl⟩

end ClaimTheorems
